import Mathlib

/-!
Verification development for the tulip-foundation repository: a shallow
embedding in Lean 4 of the donation/registration data lifecycle — the
CSV export utilities, the admin dashboard's statistics, filtering, status
mutation and load behaviour, and the donation submission flow.

Modelling conventions:
* JS strings are lists of characters (`Str := List Char`);
* JS numbers that hold counts and monetary amounts are modelled as `Int`
  (the code only adds and compares them);
* nullable fields are `Option`; `undefined`/`null` inputs to `escapeCSV`
  are an explicit inductive;
* asynchronous calls that can fail are `Except`/`Option` parameters: each
  handler becomes a pure function from its inputs and the outcomes of its
  awaited calls to a record of its observable effects (new component
  state, toasts, navigation, logging).
-/

namespace Tulip

/-- JS strings are modelled as lists of characters. -/
abbrev Str := List Char

/-! ## CSV utilities (`escapeCSV`, Dashboard part_002 lines 53-60) -/

/-- The possible inputs of `escapeCSV(value: any)`: `null`, `undefined`,
or any other value already taken to its JS string form `String(value)`. -/
inductive JSVal where
  | vnull
  | vundef
  | vstr (s : Str)
deriving DecidableEq

/-- `str.replace(/"/g, '""')`: double every embedded double quote. -/
def escQuotes : Str → Str
  | [] => []
  | c :: cs => if c = '"' then '"' :: '"' :: escQuotes cs else c :: escQuotes cs

/-- `str.includes(',') || str.includes('"')` — the quoting condition of
`escapeCSV`. -/
def needsQuote (s : Str) : Bool :=
  s.contains ',' || s.contains '"'

/-- The string branch of `escapeCSV`: wrap in double quotes and double the
embedded quotes exactly when the field contains a comma or a quote. -/
def escapeCSVs (s : Str) : Str :=
  if needsQuote s then '"' :: (escQuotes s ++ ['"']) else s

/-- `escapeCSV(value)`: `value == null` (which catches both `null` and
`undefined`) returns the empty string; otherwise the string form is
quoted via `escapeCSVs`. -/
def escapeCSV : JSVal → Str
  | .vnull => []
  | .vundef => []
  | .vstr s => escapeCSVs s

/-- RFC-4180 un-doubling of quotes inside a quoted field. -/
def collapseQuotes : Str → Str
  | [] => []
  | [c] => [c]
  | c :: d :: cs =>
    if c = '"' ∧ d = '"' then '"' :: collapseQuotes cs
    else c :: collapseQuotes (d :: cs)
termination_by s => s.length

/-- RFC-4180 unquoting: a field starting with a double quote is quoted —
strip the outer quotes and collapse doubled quotes; any other field is
taken verbatim. -/
def rfcUnquote (s : Str) : Str :=
  match s with
  | '"' :: rest => collapseQuotes rest.dropLast
  | _ => s

lemma escQuotes_nil_iff (s : Str) : escQuotes s = [] ↔ s = [] := by
  cases s with
  | nil => simp [escQuotes]
  | cons c cs =>
    simp only [escQuotes]
    by_cases hc : c = '"' <;> simp [hc]

lemma collapseQuotes_escQuotes (s : Str) : collapseQuotes (escQuotes s) = s := by
  induction s with
  | nil => simp [escQuotes, collapseQuotes]
  | cons c cs ih =>
    by_cases hc : c = '"'
    · subst hc
      rw [show escQuotes ('"' :: cs) = '"' :: '"' :: escQuotes cs by
        simp [escQuotes]]
      rw [show collapseQuotes ('"' :: '"' :: escQuotes cs)
          = '"' :: collapseQuotes (escQuotes cs) by
        simp [collapseQuotes]]
      rw [ih]
    · rw [show escQuotes (c :: cs) = c :: escQuotes cs by simp [escQuotes, hc]]
      rcases hY : escQuotes cs with _ | ⟨y, ys⟩
      · have hcs : cs = [] := (escQuotes_nil_iff cs).mp hY
        subst hcs
        simp [collapseQuotes]
      · rw [show collapseQuotes (c :: y :: ys) = c :: collapseQuotes (y :: ys) by
          simp [collapseQuotes, hc]]
        rw [← hY, ih]

lemma length_escQuotes (s : Str) : s.length ≤ (escQuotes s).length := by
  induction s with
  | nil => simp [escQuotes]
  | cons c cs ih =>
    by_cases hc : c = '"'
    · simp only [escQuotes, if_pos hc, List.length_cons]
      omega
    · simp only [escQuotes, if_neg hc, List.length_cons]
      omega

lemma rfcUnquote_quoted (s : Str) :
    rfcUnquote ('"' :: (escQuotes s ++ ['"'])) = s := by
  have h : rfcUnquote ('"' :: (escQuotes s ++ ['"']))
      = collapseQuotes (escQuotes s ++ ['"']).dropLast := rfl
  rw [h, List.dropLast_concat, collapseQuotes_escQuotes]

lemma not_head_quote_of_not_contains (s : Str) (h : s.contains '"' = false) :
    ∀ rest, s ≠ '"' :: rest := by
  intro rest hs
  subst hs
  simp [List.contains_cons] at h

lemma rfcUnquote_unquoted (s : Str) (h : needsQuote s = false) :
    rfcUnquote s = s := by
  have hq : s.contains '"' = false := by
    simp only [needsQuote, Bool.or_eq_false_iff] at h
    exact h.2
  cases s with
  | nil => rfl
  | cons c cs =>
    have hc : c ≠ '"' := by
      intro hc
      subst hc
      simp [List.contains_cons] at hq
    simp only [rfcUnquote]
    split
    · rename_i heq
      exact absurd (List.head_eq_of_cons_eq heq) (by simpa using hc)
    · rfl

lemma escapeCSVs_roundtrip (s : Str) : rfcUnquote (escapeCSVs s) = s := by
  by_cases h : needsQuote s = true
  · rw [escapeCSVs, if_pos h, rfcUnquote_quoted]
  · have h' : needsQuote s = false := by
      cases hb : needsQuote s
      · rfl
      · exact absurd hb h
    rw [escapeCSVs, if_neg (by simp [h'])]
    exact rfcUnquote_unquoted s h'

lemma escapeCSVs_eq_quoted_iff (s : Str) :
    needsQuote s = true ↔ escapeCSVs s = '"' :: (escQuotes s ++ ['"']) := by
  constructor
  · intro h
    rw [escapeCSVs, if_pos h]
  · intro h
    by_contra hn
    have h' : needsQuote s = false := by
      cases hb : needsQuote s
      · rfl
      · exact absurd hb hn
    rw [escapeCSVs, if_neg (by simp [h'])] at h
    have hl := congrArg List.length h
    simp only [List.length_cons, List.length_append, List.length_singleton] at hl
    have := length_escQuotes s
    omega

/-- Claim C8: `escapeCSV` wraps a string field in double quotes, doubling
embedded quotes, exactly when the field contains a comma or a double
quote; the field `John, "Doe"` serializes to `"John, ""Doe"""`; and
RFC-4180 unquoting of the serialized form recovers the original string. -/
theorem claim_C8_csv_roundtrip :
    escapeCSVs ("John, \"Doe\"".toList) = "\"John, \"\"Doe\"\"\"".toList
    ∧ (∀ s : Str, rfcUnquote (escapeCSVs s) = s)
    ∧ (∀ s : Str,
        (s.contains ',' || s.contains '"') = true
          ↔ escapeCSVs s = '"' :: (escQuotes s ++ ['"'])) := by
  refine ⟨by decide, escapeCSVs_roundtrip, fun s => ?_⟩
  exact escapeCSVs_eq_quoted_iff s

/-- Claim C10: `escapeCSV` is total over `null`, `undefined` and arbitrary
values — it returns the empty string for `null` or `undefined`, returns
any string without comma or double quote unquoted, and in particular a
field that is a lone newline is emitted as a bare line break. -/
theorem claim_C10_escapeCSV_total :
    escapeCSV .vnull = []
    ∧ escapeCSV .vundef = []
    ∧ (∀ s : Str, s.contains ',' = false → s.contains '"' = false →
        escapeCSV (.vstr s) = s)
    ∧ escapeCSV (.vstr ['\n']) = ['\n'] := by
  refine ⟨rfl, rfl, ?_, by decide⟩
  intro s h1 h2
  show escapeCSVs s = s
  have hf : needsQuote s = false := by
    rw [needsQuote, h1, h2]
    rfl
  rw [escapeCSVs, if_neg (by simp [hf])]

/-- Witness for C10: the one-character newline field contains neither a
comma nor a quote and is returned unquoted. -/
theorem claim_C10_witness : escapeCSV (.vstr ['\n']) = ['\n'] :=
  claim_C10_escapeCSV_total.2.2.1 ['\n'] (by decide) (by decide)

/-! ## Data model (Dashboard part_002 lines 19-50) -/

/-- Row of the `registrations` table, as declared by the Dashboard's
`Registration` type. Counts and amounts are JS numbers, modelled as
`Int`. -/
structure Registration where
  id : Str
  name : Str
  email : Str
  phone : Str
  adult_count : Int
  kids_count : Int
  family_category : Str
  total_amount : Int
  payment_status : Str
  transaction_id : Option Str
  created_at : Str
  is_tulip_parent : Bool
  t_shirt_sizes : List Str
  updated_at : Option Str
deriving DecidableEq

/-- Row of the `donations` table, as declared by the Dashboard's
`Donation` type. -/
structure Donation where
  id : Str
  first_name : Str
  last_name : Str
  email : Str
  amount : Int
  designation : Str
  is_anonymous : Bool
  payment_id : Str
  donation_type : Str
  status : Str
  created_at : Str
  updated_at : Option Str
  certificate_sent : Option Bool
deriving DecidableEq

/-- The string literal `'paid'`. -/
def paidStr : Str := "paid".toList

/-- The string literal `'pending'`. -/
def pendingStr : Str := "pending".toList

/-- The string literal `'completed'`. -/
def completedStr : Str := "completed".toList

/-- The string literal `'all'`. -/
def allStr : Str := "all".toList

/-! ## Aggregate statistics (`calculateStats`, part_002 lines 213-236) -/

/-- JS `n || 0` on a number: `0` (falsy) maps to `0`, everything else to
itself. -/
def orZeroInt (n : Int) : Int :=
  if n = 0 then 0 else n

/-- The `statsData` record produced by `calculateStats`. -/
structure Stats where
  totalRegistrations : Int
  totalParticipants : Int
  totalPaid : Int
  totalPending : Int
  totalRevenue : Int
  totalDonations : Int
  totalDonationAmount : Int
deriving DecidableEq

/-- `calculateStats(regs, dons)`: aggregate statistics recomputed from
scratch from the loaded lists, mirroring the `reduce`/`filter` chains of
the source (`reduce` is a left fold; the `|| 0` guards are `orZeroInt`). -/
def calculateStats (regs : List Registration) (dons : List Donation) : Stats :=
  { totalRegistrations := (regs.length : Int)
  , totalParticipants :=
      regs.foldl (fun sum reg =>
        sum + orZeroInt reg.adult_count + orZeroInt reg.kids_count) 0
  , totalPaid := ((regs.filter (fun reg =>
      decide (reg.payment_status = paidStr))).length : Int)
  , totalPending := ((regs.filter (fun reg =>
      decide (reg.payment_status = pendingStr))).length : Int)
  , totalRevenue :=
      (regs.filter (fun reg => decide (reg.payment_status = paidStr))).foldl
        (fun sum reg => sum + orZeroInt reg.total_amount) 0
  , totalDonations := (dons.length : Int)
  , totalDonationAmount :=
      (dons.filter (fun don => decide (don.status = completedStr))).foldl
        (fun sum don => sum + orZeroInt don.amount) 0 }

lemma orZeroInt_eq_self (n : Int) : orZeroInt n = n := by
  rw [orZeroInt]
  split
  · omega
  · rfl

lemma foldl_add_map {α : Type} (f : α → Int) :
    ∀ (l : List α) (init : Int),
      l.foldl (fun sum x => sum + f x) init = init + (l.map f).sum := by
  intro l
  induction l with
  | nil => intro init; simp
  | cons x xs ih =>
    intro init
    simp only [List.foldl_cons, List.map_cons, List.sum_cons, ih]
    ring

/-- Claim C3: `calculateStats` computes `totalParticipants` as the sum of
`adult_count + kids_count` over all registrations, `totalRevenue` as the
sum of `total_amount` over exactly the registrations with
`payment_status = 'paid'`, and `totalDonationAmount` as the sum of
`amount` over exactly the donations with `status = 'completed'`. -/
theorem claim_C3_calculateStats (regs : List Registration) (dons : List Donation) :
    (calculateStats regs dons).totalParticipants
        = (regs.map (fun reg => reg.adult_count + reg.kids_count)).sum
    ∧ (calculateStats regs dons).totalRevenue
        = ((regs.filter (fun reg => decide (reg.payment_status = paidStr))).map
            (fun reg => reg.total_amount)).sum
    ∧ (calculateStats regs dons).totalDonationAmount
        = ((dons.filter (fun don => decide (don.status = completedStr))).map
            (fun don => don.amount)).sum := by
  refine ⟨?_, ?_, ?_⟩
  · show regs.foldl (fun sum reg =>
        sum + orZeroInt reg.adult_count + orZeroInt reg.kids_count) 0 = _
    have h : (fun (sum : Int) (reg : Registration) =>
        sum + orZeroInt reg.adult_count + orZeroInt reg.kids_count)
        = fun sum reg => sum + (reg.adult_count + reg.kids_count) := by
      funext sum reg
      rw [orZeroInt_eq_self, orZeroInt_eq_self]
      ring
    rw [h]
    simpa using foldl_add_map
      (fun reg : Registration => reg.adult_count + reg.kids_count) regs 0
  · show (regs.filter _).foldl (fun sum reg => sum + orZeroInt reg.total_amount) 0 = _
    have h : (fun (sum : Int) (reg : Registration) =>
        sum + orZeroInt reg.total_amount)
        = fun sum reg => sum + reg.total_amount := by
      funext sum reg
      rw [orZeroInt_eq_self]
    rw [h]
    simpa using foldl_add_map (fun reg : Registration => reg.total_amount)
      (regs.filter (fun reg => decide (reg.payment_status = paidStr))) 0
  · show (dons.filter _).foldl (fun sum don => sum + orZeroInt don.amount) 0 = _
    have h : (fun (sum : Int) (don : Donation) => sum + orZeroInt don.amount)
        = fun sum don => sum + don.amount := by
      funext sum don
      rw [orZeroInt_eq_self]
    rw [h]
    simpa using foldl_add_map (fun don : Donation => don.amount)
      (dons.filter (fun don => decide (don.status = completedStr))) 0

/-! ## Search and status filtering (part_002 lines 391-407) -/

/-- `s.toLowerCase()`. -/
def toLowerStr (s : Str) : Str := s.map Char.toLower

/-- Whether `needle` is an initial segment of `hay`. -/
def isPrefOf : Str → Str → Bool
  | [], _ => true
  | _ :: _, [] => false
  | c :: cs, d :: ds => c = d && isPrefOf cs ds

/-- JS `hay.includes(needle)`: substring containment. -/
def containsSub (needle : Str) : Str → Bool
  | [] => isPrefOf needle []
  | c :: t => isPrefOf needle (c :: t) || containsSub needle t

/-- JS `s || ''` on a string: the empty string is falsy, so this is the
identity on total string fields. -/
def orEmpty (s : Str) : Str :=
  if s = [] then [] else s

/-- The free-text predicate over registrations: case-insensitive
substring match of the search term against name, email and
family_category. -/
def matchesSearchReg (term : Str) (reg : Registration) : Bool :=
  containsSub (toLowerStr term) (toLowerStr (orEmpty reg.name))
  || containsSub (toLowerStr term) (toLowerStr (orEmpty reg.email))
  || containsSub (toLowerStr term) (toLowerStr (orEmpty reg.family_category))

/-- The free-text predicate over donations: case-insensitive substring
match of the search term against the concatenated first+last name, email
and designation. -/
def matchesSearchDon (term : Str) (don : Donation) : Bool :=
  containsSub (toLowerStr term)
    (toLowerStr (orEmpty don.first_name ++ [' '] ++ orEmpty don.last_name))
  || containsSub (toLowerStr term) (toLowerStr (orEmpty don.email))
  || containsSub (toLowerStr term) (toLowerStr (orEmpty don.designation))

/-- The status-equality predicate over registrations: pass everything for
the `'all'` filter, otherwise require `payment_status` to equal the
filter value. -/
def statusPassReg (filt : Str) (reg : Registration) : Bool :=
  if filt = allStr then true else decide (reg.payment_status = filt)

/-- The status-equality predicate over donations. -/
def statusPassDon (filt : Str) (don : Donation) : Bool :=
  if filt = allStr then true else decide (don.status = filt)

/-- In-memory state of the Dashboard component that the filters and the
export read: the loaded lists, the search term and the two status
filters. -/
structure DashState where
  registrations : List Registration
  donations : List Donation
  searchTerm : Str
  registrationFilter : Str
  donationFilter : Str
deriving DecidableEq

/-- `filteredRegistrations`: the combined filter of the source — the
search match alone when the filter is `'all'`, otherwise the search match
conjoined with status equality. -/
def filteredRegistrations (st : DashState) : List Registration :=
  st.registrations.filter (fun reg =>
    if st.registrationFilter = allStr then matchesSearchReg st.searchTerm reg
    else matchesSearchReg st.searchTerm reg
      && decide (reg.payment_status = st.registrationFilter))

/-- `filteredDonations`: the combined filter of the source for
donations. -/
def filteredDonations (st : DashState) : List Donation :=
  st.donations.filter (fun don =>
    if st.donationFilter = allStr then matchesSearchDon st.searchTerm don
    else matchesSearchDon st.searchTerm don
      && decide (don.status = st.donationFilter))

lemma filter_filter_and {α : Type} (p q : α → Bool) (l : List α) :
    (l.filter q).filter p = l.filter (fun a => p a && q a) := by
  induction l with
  | nil => rfl
  | cons x xs ih =>
    by_cases hq : q x
    · by_cases hp : p x <;> simp [List.filter_cons, hp, hq, ih]
    · simp [List.filter_cons, hq, ih]

lemma filter_comm {α : Type} (p q : α → Bool) (l : List α) :
    (l.filter q).filter p = (l.filter p).filter q := by
  rw [filter_filter_and, filter_filter_and]
  congr 1
  funext a
  exact Bool.and_comm _ _

lemma filter_idem {α : Type} (p : α → Bool) (l : List α) :
    (l.filter p).filter p = l.filter p := by
  rw [filter_filter_and]
  congr 1
  funext a
  exact Bool.and_self _

lemma combinedReg_eq (st : DashState) :
    filteredRegistrations st
      = st.registrations.filter (fun reg =>
          matchesSearchReg st.searchTerm reg
            && statusPassReg st.registrationFilter reg) := by
  rw [filteredRegistrations]
  congr 1
  funext reg
  rw [statusPassReg]
  by_cases h : st.registrationFilter = allStr <;> simp [h]

lemma combinedDon_eq (st : DashState) :
    filteredDonations st
      = st.donations.filter (fun don =>
          matchesSearchDon st.searchTerm don
            && statusPassDon st.donationFilter don) := by
  rw [filteredDonations]
  congr 1
  funext don
  rw [statusPassDon]
  by_cases h : st.donationFilter = allStr <;> simp [h]

/-- Claim C9: for every list, search term and status filter value, the
free-text predicate and the status-equality predicate commute and are
each idempotent, and filtering by them in either order yields exactly the
combined filtered list used by the dashboard
(`filteredRegistrations` / `filteredDonations`). -/
theorem claim_C9_filter_commute_idem (st : DashState) :
    ((st.registrations.filter (statusPassReg st.registrationFilter)).filter
        (matchesSearchReg st.searchTerm) = filteredRegistrations st)
    ∧ ((st.registrations.filter (matchesSearchReg st.searchTerm)).filter
        (statusPassReg st.registrationFilter) = filteredRegistrations st)
    ∧ ((st.registrations.filter (matchesSearchReg st.searchTerm)).filter
        (matchesSearchReg st.searchTerm)
        = st.registrations.filter (matchesSearchReg st.searchTerm))
    ∧ ((st.registrations.filter (statusPassReg st.registrationFilter)).filter
        (statusPassReg st.registrationFilter)
        = st.registrations.filter (statusPassReg st.registrationFilter))
    ∧ ((st.donations.filter (statusPassDon st.donationFilter)).filter
        (matchesSearchDon st.searchTerm) = filteredDonations st)
    ∧ ((st.donations.filter (matchesSearchDon st.searchTerm)).filter
        (statusPassDon st.donationFilter) = filteredDonations st)
    ∧ ((st.donations.filter (matchesSearchDon st.searchTerm)).filter
        (matchesSearchDon st.searchTerm)
        = st.donations.filter (matchesSearchDon st.searchTerm))
    ∧ ((st.donations.filter (statusPassDon st.donationFilter)).filter
        (statusPassDon st.donationFilter)
        = st.donations.filter (statusPassDon st.donationFilter)) := by
  refine ⟨?_, ?_, filter_idem _ _, filter_idem _ _, ?_, ?_,
    filter_idem _ _, filter_idem _ _⟩
  · rw [filter_filter_and, combinedReg_eq]
  · rw [filter_comm, filter_filter_and, combinedReg_eq]
  · rw [filter_filter_and, combinedDon_eq]
  · rw [filter_comm, filter_filter_and, combinedDon_eq]

/-! ## CSV export (`handleExportData`, part_002 lines 328-377) -/

/-- `String(n)` for a JS number modelled as `Int`. -/
def intToStr (n : Int) : Str := (toString n).toList

/-- JS whitespace characters stripped by `trim()` (the common ones). -/
def isWSChar (c : Char) : Bool :=
  c = ' ' || c = '\t' || c = '\n' || c = '\r'

/-- JS `s.trim()`: drop whitespace from both ends. -/
def trimStr (s : Str) : Str :=
  ((s.dropWhile isWSChar).reverse.dropWhile isWSChar).reverse

/-- JS `opt || 'N/A'` on a nullable string: `null` and the empty string
are falsy. -/
def orNA (o : Option Str) : Str :=
  match o with
  | none => "N/A".toList
  | some s => if s = [] then "N/A".toList else s

/-- `arr.join(sep)`. -/
def joinSep (sep : Str) (xs : List Str) : Str :=
  List.intercalate sep xs

/-- A fixed stand-in for the ambient
`new Date(created_at).toLocaleDateString()` — the export row shape is
parametrized over the date formatter, and this instance closes concrete
statements (none of the verified properties depend on the format). -/
def localeDate (s : Str) : Str := s

/-- One CSV row for a registration, mirroring the column list of
`handleExportData('registrations')`. On the declared (non-null) type,
`reg.t_shirt_sizes` is an array and arrays are always truthy in JS, so
the ternary always takes the `join(', ')` branch. -/
def regRow (fmt : Str → Str) (reg : Registration) : List Str :=
  [ escapeCSVs (orEmpty reg.name)
  , escapeCSVs (orEmpty reg.email)
  , escapeCSVs (orEmpty reg.phone)
  , escapeCSVs (intToStr (orZeroInt reg.adult_count))
  , escapeCSVs (intToStr (orZeroInt reg.kids_count))
  , escapeCSVs (orEmpty reg.family_category)
  , escapeCSVs (intToStr (orZeroInt reg.total_amount))
  , escapeCSVs (orEmpty reg.payment_status)
  , escapeCSVs (orNA reg.transaction_id)
  , escapeCSVs (if reg.created_at = [] then [] else fmt reg.created_at)
  , escapeCSVs (joinSep ", ".toList reg.t_shirt_sizes) ]

/-- One CSV row for a donation, mirroring the column list of
`handleExportData('donations')`. -/
def donRow (fmt : Str → Str) (don : Donation) : List Str :=
  [ escapeCSVs (trimStr
      (trimStr (orEmpty don.first_name) ++ [' '] ++ trimStr (orEmpty don.last_name)))
  , escapeCSVs (orEmpty don.email)
  , escapeCSVs (intToStr (orZeroInt don.amount))
  , escapeCSVs (orEmpty don.designation)
  , escapeCSVs (if don.is_anonymous then "Yes".toList else "No".toList)
  , escapeCSVs (orEmpty don.payment_id)
  , escapeCSVs (orEmpty don.donation_type)
  , escapeCSVs (orEmpty don.status)
  , escapeCSVs (if don.created_at = [] then [] else fmt don.created_at) ]

/-- The `type` argument of `handleExportData`. -/
inductive ExportKind where
  | registrations
  | donations
deriving DecidableEq

/-- The header row per kind. -/
def exportHeaders : ExportKind → List Str
  | .registrations =>
      [ "Name".toList, "Email".toList, "Phone".toList, "Adults".toList
      , "Kids".toList, "Family Type".toList, "Amount".toList, "Status".toList
      , "Transaction ID".toList, "Date".toList, "T-Shirt Sizes".toList ]
  | .donations =>
      [ "Name".toList, "Email".toList, "Amount".toList, "Designation".toList
      , "Anonymous".toList, "Payment ID".toList, "Type".toList
      , "Status".toList, "Date".toList ]

/-- The `csvData` rows built by `handleExportData`: the source reads
`const data = type === 'registrations' ? registrations : donations` —
the raw component lists, not the filtered views — and maps the per-kind
row over it. -/
def exportRows (fmt : Str → Str) (st : DashState) : ExportKind → List (List Str)
  | .registrations => st.registrations.map (regRow fmt)
  | .donations => st.donations.map (donRow fmt)

/-- The `csvContent` string: header line then one comma-joined line per
row, joined by newlines. -/
def csvContent (fmt : Str → Str) (st : DashState) (k : ExportKind) : Str :=
  joinSep ['\n']
    (joinSep [','] (exportHeaders k) :: (exportRows fmt st k).map (joinSep [',']))

/-- A registration whose name matches the search term of the
counterexample state. -/
def regAnn : Registration :=
  { id := "1".toList, name := "ann".toList, email := "a@x.co".toList
  , phone := "1".toList, adult_count := 2, kids_count := 1
  , family_category := "solo".toList, total_amount := 10
  , payment_status := pendingStr, transaction_id := none
  , created_at := "d".toList, is_tulip_parent := false
  , t_shirt_sizes := [], updated_at := none }

/-- A registration whose fields do not contain the search term of the
counterexample state. -/
def regBob : Registration :=
  { id := "2".toList, name := "bob".toList, email := "b@x.co".toList
  , phone := "2".toList, adult_count := 1, kids_count := 0
  , family_category := "duo".toList, total_amount := 20
  , payment_status := paidStr, transaction_id := some "tx_abc".toList
  , created_at := "d".toList, is_tulip_parent := false
  , t_shirt_sizes := [], updated_at := none }

/-- A dashboard state with a non-empty search term under which only one
of the two loaded registrations passes the filter. -/
def cexExportState : DashState :=
  { registrations := [regAnn, regBob], donations := []
  , searchTerm := "ann".toList
  , registrationFilter := allStr, donationFilter := allStr }

/-- Counterexample to claim C1: in a dashboard state with the non-empty
search term `"ann"`, only one of the two loaded registrations passes the
filter, yet `handleExportData('registrations')` emits one CSV row per
*unfiltered* record — two rows, not the one row per filtered record the
claim requires. -/
theorem claim_C1_counterexample :
    cexExportState.searchTerm ≠ []
    ∧ (filteredRegistrations cexExportState).length = 1
    ∧ (exportRows localeDate cexExportState .registrations).length = 2
    ∧ exportRows localeDate cexExportState .registrations
        ≠ (filteredRegistrations cexExportState).map (regRow localeDate) := by
  decide

/-- Claim C1 as amended: `exportData(kind)` serializes the full
unfiltered in-memory list for that kind — the rows are unchanged by any
search term or status filter, and there is exactly one CSV row per
loaded record. -/
theorem claim_C1_export_unfiltered (fmt : Str → Str)
    (regs : List Registration) (dons : List Donation)
    (q f df q2 f2 df2 : Str) :
    exportRows fmt ⟨regs, dons, q, f, df⟩ .registrations
        = exportRows fmt ⟨regs, dons, q2, f2, df2⟩ .registrations
    ∧ exportRows fmt ⟨regs, dons, q, f, df⟩ .donations
        = exportRows fmt ⟨regs, dons, q2, f2, df2⟩ .donations
    ∧ (exportRows fmt ⟨regs, dons, q, f, df⟩ .registrations).length = regs.length
    ∧ (exportRows fmt ⟨regs, dons, q, f, df⟩ .donations).length = dons.length := by
  refine ⟨rfl, rfl, ?_, ?_⟩
  · simp [exportRows]
  · simp [exportRows]

/-! ## Payment/donation status updates
(`handleUpdatePaymentStatus`, part_002 lines 242-269;
`handleUpdateDonationStatus`, lines 272-298) -/

/-- The `status` argument of `handleUpdatePaymentStatus`:
`'paid' | 'pending'`. -/
inductive PayStatus where
  | paid
  | pending
deriving DecidableEq

/-- The string form of a `PayStatus`. -/
def payStatusStr : PayStatus → Str
  | .paid => paidStr
  | .pending => pendingStr

/-- A base-36 digit as produced by `Number.prototype.toString(36)`:
`0-9` or `a-z`. -/
def isB36 (c : Char) : Bool :=
  ('a' ≤ c && c ≤ 'z') || ('0' ≤ c && c ≤ '9')

/-- Well-formedness of `Math.random().toString(36)` output for a double
in `[0, 1)`: either the single digit `"0"`, or `"0."` followed by a
non-empty run of base-36 digits with no trailing zero. -/
def valid36 (s : Str) : Bool :=
  decide (s = ['0'])
  || (decide (s.take 2 = ['0', '.'])
      && !(s.drop 2).isEmpty
      && (s.drop 2).all isB36
      && !((s.drop 2).getLast? == some '0'))

/-- JS `s.substring(2, 11)`: the characters at indices 2 through 10. -/
def substr2to11 (s : Str) : Str := (s.drop 2).take 9

/-- The `updateData` patch object computed by
`handleUpdatePaymentStatus`: the new status, a fresh
`tx_`-prefixed id derived from the random draw when transitioning to
paid and `null` otherwise, and the current timestamp. -/
structure RegPatch where
  payment_status : Str
  transaction_id : Option Str
  updated_at : Str
deriving DecidableEq

/-- Build the `updateData` patch from the requested status and the
base-36 string form of the `Math.random()` draw. -/
def mkUpdateData (status : PayStatus) (rand now : Str) : RegPatch :=
  { payment_status := payStatusStr status
  , transaction_id :=
      if status = .paid then some ("tx_".toList ++ substr2to11 rand) else none
  , updated_at := now }

/-- The JS spread `{ ...reg, ...updateData }`. -/
def applyRegPatch (reg : Registration) (p : RegPatch) : Registration :=
  { reg with
    payment_status := p.payment_status
  , transaction_id := p.transaction_id
  , updated_at := some p.updated_at }

/-- Observable effects of one `handleUpdatePaymentStatus` call. -/
structure RegUpdateOutcome where
  registrations : List Registration
  successToasts : List Str
  errorToasts : List Str
  reloadRequested : Bool
deriving DecidableEq

/-- Toast text `Payment status updated to ${status}`. -/
def payUpdToast (status : PayStatus) : Str :=
  "Payment status updated to ".toList ++ payStatusStr status

/-- The error toast of `handleUpdatePaymentStatus`. -/
def payUpdErrToast : Str := "Failed to update payment status".toList

/-- `handleUpdatePaymentStatus(id, status)` as a function of the prior
list, the random draw, the timestamp, and the store update's outcome
(`none` = success). The store error is checked *before* the local-state
map, so on failure the list is returned untouched and only the error
toast is emitted; on success the matching record is patched, a success
toast is emitted and a reload is requested. -/
def handleUpdatePaymentStatus (regs : List Registration) (id : Str)
    (status : PayStatus) (rand now : Str) (storeErr : Option Str) :
    RegUpdateOutcome :=
  let updateData := mkUpdateData status rand now
  match storeErr with
  | some _ =>
      { registrations := regs, successToasts := []
      , errorToasts := [payUpdErrToast], reloadRequested := false }
  | none =>
      { registrations := regs.map (fun reg =>
          if reg.id = id then applyRegPatch reg updateData else reg)
      , successToasts := [payUpdToast status]
      , errorToasts := [], reloadRequested := true }

/-- The `status` argument of `handleUpdateDonationStatus`:
`'completed' | 'pending'`. -/
inductive DonStatus where
  | completed
  | pending
deriving DecidableEq

/-- The string form of a `DonStatus`. -/
def donStatusStr : DonStatus → Str
  | .completed => completedStr
  | .pending => pendingStr

/-- Observable effects of one `handleUpdateDonationStatus` call. -/
structure DonUpdateOutcome where
  donations : List Donation
  successToasts : List Str
  errorToasts : List Str
  reloadRequested : Bool
deriving DecidableEq

/-- Toast text `Donation status updated to ${status}`. -/
def donUpdToast (status : DonStatus) : Str :=
  "Donation status updated to ".toList ++ donStatusStr status

/-- The error toast of `handleUpdateDonationStatus`. -/
def donUpdErrToast : Str := "Failed to update donation status".toList

/-- `handleUpdateDonationStatus(id, status)`: same shape as the
registration update — patch `{status, updated_at}` applied to local
state only after the store update succeeds. -/
def handleUpdateDonationStatus (dons : List Donation) (id : Str)
    (status : DonStatus) (now : Str) (storeErr : Option Str) :
    DonUpdateOutcome :=
  match storeErr with
  | some _ =>
      { donations := dons, successToasts := []
      , errorToasts := [donUpdErrToast], reloadRequested := false }
  | none =>
      { donations := dons.map (fun don =>
          if don.id = id then
            { don with status := donStatusStr status, updated_at := some now }
          else don)
      , successToasts := [donUpdToast status]
      , errorToasts := [], reloadRequested := true }

/-- Counterexample to claim C4: `Math.random()` can return `0.5`, whose
base-36 string form is `"0.i"`; `substring(2, 11)` then yields the
single character `"i"`, so the synthesized `transaction_id` is `"tx_i"`
— non-null, but with one character after the prefix, not the nine the
claim requires. -/
theorem claim_C4_counterexample :
    valid36 ("0.i".toList) = true
    ∧ (mkUpdateData .paid ("0.i".toList) ("t".toList)).transaction_id
        = some ("tx_i".toList)
    ∧ (mkUpdateData .paid ("0.i".toList) ("t".toList)).transaction_id.map
        List.length ≠ some 12 := by
  decide

lemma valid36_cases (s : Str) (h : valid36 s = true) :
    s = ['0'] ∨ (s.drop 2).all isB36 = true := by
  rw [valid36] at h
  rcases Bool.or_eq_true_iff.mp h with h1 | h2
  · exact Or.inl (of_decide_eq_true h1)
  · have := Bool.and_eq_true_iff.mp h2
    have := Bool.and_eq_true_iff.mp this.1
    exact Or.inr this.2

/-- Claim C4 as amended: for a well-formed random draw,
`updatePaymentStatus(id, 'paid')` produces a non-null `transaction_id`
of the form `tx_` followed by *at most* nine base-36 characters —
exactly nine whenever the draw's fractional expansion has at least nine
digits, but fewer when `toString(36)` produced a shorter expansion — and
`updatePaymentStatus(id, 'pending')` produces `transaction_id = null`. -/
theorem claim_C4_transaction_id_shape (rand now : Str)
    (h : valid36 rand = true) :
    (mkUpdateData .paid rand now).transaction_id
        = some ("tx_".toList ++ substr2to11 rand)
    ∧ (substr2to11 rand).all isB36 = true
    ∧ (substr2to11 rand).length ≤ 9
    ∧ (9 ≤ (rand.drop 2).length → (substr2to11 rand).length = 9)
    ∧ (mkUpdateData .pending rand now).transaction_id = none := by
  refine ⟨rfl, ?_, ?_, ?_, rfl⟩
  · rcases valid36_cases rand h with h0 | hall
    · subst h0
      decide
    · rw [substr2to11]
      rw [List.all_eq_true] at hall ⊢
      intro c hc
      exact hall c (List.mem_of_mem_take hc)
  · rw [substr2to11]
    simp
  · intro h9
    rw [substr2to11, List.length_take]
    omega

/-- Witness for C4: the draw `"0.abcdefghi"` is well formed and yields
the nine-character suffix `abcdefghi` for the paid transition and `null`
for the pending transition. -/
theorem claim_C4_witness :
    (mkUpdateData .paid ("0.abcdefghi".toList) ("t".toList)).transaction_id
        = some ("tx_abcdefghi".toList)
    ∧ (mkUpdateData .pending ("0.abcdefghi".toList) ("t".toList)).transaction_id
        = none := by
  have h := claim_C4_transaction_id_shape ("0.abcdefghi".toList) ("t".toList)
    (by decide)
  exact ⟨h.1.trans (by decide), h.2.2.2.2⟩

/-- Counterexample to claim C5: with a single pending registration and a
failing store update, `handleUpdatePaymentStatus(id, 'paid')` emits the
error toast but returns the list *unchanged* — the record still reads
`pending`, so local state does not reflect the attempted new status as
the claim asserts. -/
theorem claim_C5_counterexample :
    (handleUpdatePaymentStatus [regAnn] regAnn.id .paid ("0.abc".toList)
        ("t".toList) (some "boom".toList)).errorToasts = [payUpdErrToast]
    ∧ (handleUpdatePaymentStatus [regAnn] regAnn.id .paid ("0.abc".toList)
        ("t".toList) (some "boom".toList)).registrations = [regAnn]
    ∧ regAnn.payment_status = pendingStr
    ∧ pendingStr ≠ payStatusStr .paid := by
  decide

/-- Claim C5 as amended: on a failing store update both handlers show
the error toast and leave local list state completely unchanged (the
local patch is applied only after a successful store update, so there is
no optimistic patch to leave in place), and no reload is triggered. -/
theorem claim_C5_update_failure_unchanged (regs : List Registration)
    (dons : List Donation) (id : Str) (pstatus : PayStatus)
    (dstatus : DonStatus) (rand now e : Str) :
    (handleUpdatePaymentStatus regs id pstatus rand now (some e)).registrations
        = regs
    ∧ (handleUpdatePaymentStatus regs id pstatus rand now (some e)).errorToasts
        = [payUpdErrToast]
    ∧ (handleUpdatePaymentStatus regs id pstatus rand now (some e)).reloadRequested
        = false
    ∧ (handleUpdateDonationStatus dons id dstatus now (some e)).donations = dons
    ∧ (handleUpdateDonationStatus dons id dstatus now (some e)).errorToasts
        = [donUpdErrToast]
    ∧ (handleUpdateDonationStatus dons id dstatus now (some e)).reloadRequested
        = false :=
  ⟨rfl, rfl, rfl, rfl, rfl, rfl⟩

/-- The invariant of claim C7: `transaction_id` is non-null only when
`payment_status = 'paid'`. -/
def txInvariant (reg : Registration) : Bool :=
  !reg.transaction_id.isSome || decide (reg.payment_status = paidStr)

/-- One admin payment-status correction: its target id, requested
status, random draw and timestamp. -/
structure PayOp where
  id : Str
  status : PayStatus
  rand : Str
  now : Str

/-- Apply a sequence of successful `handleUpdatePaymentStatus` calls to
the local registration list. -/
def applyPayOps (ops : List PayOp) (regs : List Registration) :
    List Registration :=
  ops.foldl (fun regs op =>
    (handleUpdatePaymentStatus regs op.id op.status op.rand op.now
      none).registrations) regs

lemma txInvariant_applyRegPatch (reg : Registration) (status : PayStatus)
    (rand now : Str) :
    txInvariant (applyRegPatch reg (mkUpdateData status rand now)) = true := by
  cases status <;>
    simp [txInvariant, applyRegPatch, mkUpdateData, payStatusStr]

lemma txInvariant_step (regs : List Registration) (op : PayOp)
    (h : regs.all txInvariant = true) :
    ((handleUpdatePaymentStatus regs op.id op.status op.rand op.now
      none).registrations).all txInvariant = true := by
  rw [List.all_eq_true] at h ⊢
  intro reg hreg
  rw [handleUpdatePaymentStatus] at hreg
  simp only [List.mem_map] at hreg
  obtain ⟨src, hsrc, heq⟩ := hreg
  subst heq
  by_cases hid : src.id = op.id
  · rw [if_pos hid]
    exact txInvariant_applyRegPatch src op.status op.rand op.now
  · rw [if_neg hid]
    exact h src hsrc

/-- Claim C7: starting from a registration list in which every record
satisfies the invariant (`transaction_id` non-null only when
`payment_status = 'paid'`), any sequence of `updatePaymentStatus` calls
preserves it — the paid transition installs a non-null id together with
the paid status, and the pending transition clears the id. -/
theorem claim_C7_invariant_preserved (ops : List PayOp)
    (regs : List Registration)
    (h : regs.all txInvariant = true) :
    (applyPayOps ops regs).all txInvariant = true
    ∧ (∀ rand now : Str,
        ((mkUpdateData .paid rand now).transaction_id.isSome = true)
        ∧ (mkUpdateData .pending rand now).transaction_id = none) := by
  refine ⟨?_, fun rand now => ⟨rfl, rfl⟩⟩
  induction ops generalizing regs with
  | nil => exact h
  | cons op ops ih =>
    rw [applyPayOps, List.foldl_cons]
    exact ih _ (txInvariant_step regs op h)

/-- Witness for C7: a concrete two-step correction sequence applied to a
list satisfying the invariant still satisfies it. -/
theorem claim_C7_witness :
    (applyPayOps
      [ { id := "1".toList, status := .paid, rand := "0.abc".toList
        , now := "t1".toList }
      , { id := "1".toList, status := .pending, rand := "0.xyz".toList
        , now := "t2".toList } ]
      [regAnn, regBob]).all txInvariant = true :=
  (claim_C7_invariant_preserved _ [regAnn, regBob] (by decide)).1

/-! ## Dashboard load (`fetchData`, part_002 lines 155-211) -/

/-- The loaded in-memory state that `fetchData` reads and writes: the
two lists and the derived statistics. -/
structure LoadState where
  registrations : List Registration
  donations : List Donation
  stats : Stats
deriving DecidableEq

/-- Observable effects of one `fetchData` run. -/
structure FetchOutcome where
  state : LoadState
  errorToasts : List Str
deriving DecidableEq

/-- The error toast of `fetchData`. -/
def loadFailToast : Str := "Failed to load data".toList

/-- `fetchData()` as a function of the prior state and the outcomes of
the two ordered reads. The source sets `registrations` *immediately*
after the first read succeeds and only then awaits the donations read,
so a failing donations read leaves the freshly read registrations in
place; a failing registrations read throws before any state change.
Stats are recomputed only when both reads succeed. (The intermediate
`count(*)` probe on the donations table only logs and is omitted; a
`null` data payload with no error is absorbed by `?? []` into the ok
list.) -/
def fetchData (prior : LoadState)
    (regRes : Except Str (List Registration))
    (donRes : Except Str (List Donation)) : FetchOutcome :=
  match regRes with
  | .error _ => { state := prior, errorToasts := [loadFailToast] }
  | .ok regs =>
    match donRes with
    | .error _ =>
        { state := { prior with registrations := regs }
        , errorToasts := [loadFailToast] }
    | .ok dons =>
        { state :=
            { registrations := regs, donations := dons
            , stats := calculateStats regs dons }
        , errorToasts := [] }

/-- A prior loaded state holding one registration. -/
def priorLoadState : LoadState :=
  { registrations := [regAnn], donations := []
  , stats := calculateStats [regAnn] [] }

/-- Counterexample to claim C6: when the registrations read succeeds
(returning a different list) and the donations read fails, the failed
load surfaces the toast but *does* modify the registrations state — the
prior list is replaced by the fresh read, contradicting the claim that
neither list is modified by a failed load. -/
theorem claim_C6_counterexample :
    (fetchData priorLoadState (.ok [regBob])
        (.error "boom".toList)).errorToasts = [loadFailToast]
    ∧ (fetchData priorLoadState (.ok [regBob])
        (.error "boom".toList)).state.registrations = [regBob]
    ∧ priorLoadState.registrations ≠ [regBob] := by
  decide

/-- Claim C6 as amended: a failed load surfaces the error toast and
never touches the donations state or the stats; a failure of the
registrations read leaves the registrations state untouched as well, but
when the registrations read succeeds and the donations read then fails,
the registrations state has already been replaced by the fresh read. -/
theorem claim_C6_fetch_failure (prior : LoadState) (e e2 : Str)
    (donRes : Except Str (List Donation)) (regs : List Registration) :
    fetchData prior (.error e) donRes
        = { state := prior, errorToasts := [loadFailToast] }
    ∧ fetchData prior (.ok regs) (.error e2)
        = { state := { prior with registrations := regs }
          , errorToasts := [loadFailToast] } :=
  ⟨rfl, rfl⟩

/-! ## Donation submission flow (DonationForm.tsx, `onSubmit`,
lines 69-164) -/

/-- Validated donor input, after the form schema: names, email, amount,
optional designation, optional anonymity flag. -/
structure DonationFormData where
  firstName : Str
  lastName : Str
  email : Str
  amount : Int
  designation : Option Str
  isAnonymous : Option Bool
deriving DecidableEq

/-- The `donationData` carried to the confirmation view by
`navigate('/donation-success', ...)`. -/
structure NavDonationData where
  name : Str
  email : Str
  amount : Int
  designation : Option Str
  isAnonymous : Bool
deriving DecidableEq

/-- The navigation payload: displayable donor fields plus the payment
reference id. -/
structure NavTarget where
  donationData : NavDonationData
  transactionId : Str
deriving DecidableEq

/-- Observable effects of one `onSubmit` run: toasts shown, navigation
performed, and whether the database error was logged to the console. -/
structure SubmitOutcome where
  errorToasts : List Str
  successToasts : List Str
  nav : Option NavTarget
  dbErrorLogged : Bool
deriving DecidableEq

/-- The toast for a thrown payment-path error. -/
def paymentFailedToast : Str := "Payment failed".toList

/-- The toast when the payment widget is not initialized. -/
def stripeNotInitToast : Str := "Stripe has not been initialized".toList

/-- The success toast of the donation flow. -/
def donationSuccessToast : Str := "Donation successful!".toList

/-- The `catch` block of `onSubmit`: log the error and toast
`'Payment failed'`; no navigation. -/
def submitCatchOutcome : SubmitOutcome :=
  { errorToasts := [paymentFailedToast], successToasts := []
  , nav := none, dbErrorLogged := false }

/-- `onSubmit(data)` as a function of the form data and the outcomes of
the awaited calls: widget readiness, payment-intent creation, card
element presence, card-payment confirmation (returning the payment
reference on success), and the database insert (`none` = insert
succeeded). A thrown error anywhere before the insert lands in the
`catch` block; a failing insert is only logged (`console.error`) and the
success toast and navigation still happen. -/
def onSubmit (form : DonationFormData) (stripeReady elementsReady : Bool)
    (intentRes : Except Str Str) (cardPresent : Bool)
    (confirmRes : Except Str Str) (insertErr : Option Str) : SubmitOutcome :=
  if !stripeReady || !elementsReady then
    { errorToasts := [stripeNotInitToast], successToasts := []
    , nav := none, dbErrorLogged := false }
  else
    match intentRes with
    | .error _ => submitCatchOutcome
    | .ok _clientSecret =>
      if !cardPresent then submitCatchOutcome
      else
        match confirmRes with
        | .error _ => submitCatchOutcome
        | .ok ref =>
            { errorToasts := []
            , successToasts := [donationSuccessToast]
            , nav := some
                { donationData :=
                    { name := form.firstName ++ [' '] ++ form.lastName
                    , email := form.email
                    , amount := form.amount
                    , designation := form.designation
                    , isAnonymous := form.isAnonymous.getD false }
                , transactionId := ref }
            , dbErrorLogged := insertErr.isSome }

/-- Claim C2: whenever the payment confirmation succeeds but the
database insert fails, the flow still navigates to the confirmation view
carrying the donor's displayable fields and the payment reference id,
shows the success toast and no user-facing error, and the insert error
is only logged. -/
theorem claim_C2_silent_insert_failure (form : DonationFormData)
    (cs ref e : Str) :
    onSubmit form true true (.ok cs) true (.ok ref) (some e)
      = { errorToasts := []
        , successToasts := [donationSuccessToast]
        , nav := some
            { donationData :=
                { name := form.firstName ++ [' '] ++ form.lastName
                , email := form.email
                , amount := form.amount
                , designation := form.designation
                , isAnonymous := form.isAnonymous.getD false }
            , transactionId := ref }
        , dbErrorLogged := true } :=
  rfl

end Tulip
